import Mathlib

/-!
Verification development for the `max3100` Python extension module
(`max3100_module.c`): a shallow embedding in Lean 4 of the module's
byte-stream operations, baud-rate resolution, open/close handle state
machine, and the 16-bit transfer helper, together with theorems settling
the specification's claims about them.

Machine integers are embedded as `Nat`/`Int` with explicit `% 2^w`
reductions wherever the C code performs a narrowing conversion.  Kernel
syscalls (`open`, `read`, `write`, `ioctl`, `close`) are modelled by an
explicit environment recording which of them succeed and what data the
bus yields; every embedded operation returns, besides its result, the
trace of bytes it handed to the transport.
-/

namespace Max3100

/-- `#define SPIDEV_MAXPATH 4096` (`max3100_module.c` line 39). -/
def SPIDEV_MAXPATH : Nat := 4096

/-- Error kinds raised by the module: `PyExc_TypeError`,
`PyExc_OverflowError`, `PyExc_IOError` (the latter also covers the
`perror` + `NULL` short-read/short-write returns). -/
inductive PyErr where
  | typeError
  | overflowError
  | ioError
deriving DecidableEq, Repr

/-- A Python-level value handed to `writebytes`: either an `int`
(`PyLong_Check` succeeds, carrying a C `long`) or any other object. -/
inductive PyVal where
  | int (n : Int)
  | other
deriving DecidableEq, Repr

/-- The C cast `(__u8)PyLong_AS_LONG(val)`: conversion of a `long` to an
unsigned 8-bit integer, i.e. reduction modulo 256 (two's complement low
byte, also for negative values). -/
def toU8 (n : Int) : Nat := (n % 256).toNat

/-- The element-conversion loop of `MAX3100_writebytes`
(`max3100_module.c` lines 236-252): each `PyLong` element is narrowed to
a byte with `(__u8)`; the first non-integer element aborts the whole
call with a `TypeError` before any transfer. -/
def convertSeq : List PyVal → Except PyErr (List Nat)
  | [] => .ok []
  | PyVal.int n :: rest =>
      match convertSeq rest with
      | .error e => .error e
      | .ok bs => .ok (toU8 n :: bs)
  | PyVal.other :: _ => .error .typeError

/-- POSIX `write(2)` on the spidev descriptor: fails (EBADF) on the
`-1` closed-handle sentinel, otherwise transfers the whole buffer and
returns the byte count. -/
def sysWrite (fd : Int) (bytes : List Nat) : Option Nat :=
  if fd < 0 then none else some bytes.length

/-- POSIX `read(2)` on the spidev descriptor: fails (EBADF) on the `-1`
closed-handle sentinel, otherwise shifts in exactly `n` bytes from the
bus, each a value below 256. -/
def sysRead (fd : Int) (bus : Nat → Nat) (n : Nat) : Option (List Nat) :=
  if fd < 0 then none else some ((List.range n).map fun i => bus i % 256)

/-- `MAX3100_writebytes` (`max3100_module.c` lines 210-270).  The
sequence length is stored into a `uint16_t` (`uint16_t ii, len`), so it
is reduced modulo 2^16 before the emptiness and `SPIDEV_MAXPATH`
checks.  All elements are converted before the single `write` syscall;
any conversion failure therefore precedes every hardware access.  The
second component is the trace of buffers handed to a successful
`write`. -/
def MAX3100_writebytes (fd : Int) (vals : List PyVal) :
    Except PyErr Unit × List (List Nat) :=
  if vals.length % 65536 = 0 then (.error .typeError, [])
  else if SPIDEV_MAXPATH < vals.length % 65536 then (.error .overflowError, [])
  else
    match convertSeq (vals.take (vals.length % 65536)) with
    | .error e => (.error e, [])
    | .ok bs =>
        match sysWrite fd bs with
        | none => (.error .ioError, [])
        | some st => if st = bs.length then (.ok (), [bs]) else (.error .ioError, [bs])

/-- The length clamp in `MAX3100_readbytes` (`max3100_module.c` lines
286-290): `if (len < 1) len = 1; else if ((unsigned)len > sizeof(rxbuf))
len = sizeof(rxbuf);` with `sizeof(rxbuf) = SPIDEV_MAXPATH`. -/
def clampReadLen (len : Int) : Nat :=
  if len < 1 then 1
  else if (SPIDEV_MAXPATH : Int) < len then SPIDEV_MAXPATH
  else len.toNat

/-- `MAX3100_readbytes` (`max3100_module.c` lines 276-313): clamps the
requested length into `[1, SPIDEV_MAXPATH]`, performs a single `read`
syscall of exactly that many bytes, and returns them as a list. -/
def MAX3100_readbytes (fd : Int) (bus : Nat → Nat) (len : Int) :
    Except PyErr (List Nat) :=
  match sysRead fd bus (clampReadLen len) with
  | none => .error .ioError
  | some bytes => .ok bytes

/-! ## The 16-bit transfer helper -/

/-- One operation observed on the spidev transport: a half-duplex write
of a byte buffer (`write(2)`) or a half-duplex read of a byte count
(`read(2)`).  Each corresponds to one bus transaction of the spidev
driver. -/
inductive BusOp where
  | wr (bytes : List Nat)
  | rd (count : Nat)
deriving DecidableEq, Repr

/-- The in-memory byte layout of a `uint16_t` on the (little-endian)
host: low byte first.  `write(fd, &send, sizeof(uint16_t))` hands
exactly these two bytes to the bus, in this order. -/
def uint16LeBytes (w : Nat) : List Nat := [w % 256, w / 256 % 256]

/-- Reassembly of a `uint16_t` from the two bytes `read(2)` stored into
it, again little-endian: the first bus byte becomes the low byte. -/
def uint16OfLeBytes (b0 b1 : Nat) : Nat := b0 % 256 + 256 * (b1 % 256)

/-- `transfer16` (`max3100_module.c` lines 1027-1030):

    void transfer16(int fd, uint16_t send, uint16_t *recv) {
        write(fd, &send, sizeof(uint16_t));
        read(fd, recv, sizeof(uint16_t));
    }

`bus i` is the `i`-th byte the bus yields to the `read`.  The result is
the received word together with the trace of bus operations
performed. -/
def transfer16 (bus : Nat → Nat) (send : Nat) : Nat × List BusOp :=
  (uint16OfLeBytes (bus 0) (bus 1),
   [BusOp.wr (uint16LeBytes send), BusOp.rd 2])

/-! ## Baud-rate resolution and the open-time configuration word -/

/-- `#define MAX3100_CMD_WRITE_CONF 0b1100000000000000`. -/
def MAX3100_CMD_WRITE_CONF : Nat := 0b1100000000000000

/-- `#define MAX3100_CONF_RM 0b0000010000000000`. -/
def MAX3100_CONF_RM : Nat := 0b0000010000000000

/-- Baud divisors for crystal multiplier x1 (`max3100_module.c` lines
62-72). -/
def MAX3100_CONF_BAUD_X1_115200 : Nat := 0b0000000000000000
def MAX3100_CONF_BAUD_X1_57600 : Nat := 0b0000000000000001
def MAX3100_CONF_BAUD_X1_38400 : Nat := 0b0000000000001000
def MAX3100_CONF_BAUD_X1_19200 : Nat := 0b0000000000001001
def MAX3100_CONF_BAUD_X1_9600 : Nat := 0b0000000000001010
def MAX3100_CONF_BAUD_X1_4800 : Nat := 0b0000000000001011
def MAX3100_CONF_BAUD_X1_2400 : Nat := 0b0000000000001100
def MAX3100_CONF_BAUD_X1_1200 : Nat := 0b0000000000001101
def MAX3100_CONF_BAUD_X1_600 : Nat := 0b0000000000001110
def MAX3100_CONF_BAUD_X1_300 : Nat := 0b0000000000001111

/-- Baud divisors for crystal multiplier x2 (`max3100_module.c` lines
74-84). -/
def MAX3100_CONF_BAUD_X2_230400 : Nat := 0b0000000000000000
def MAX3100_CONF_BAUD_X2_115200 : Nat := 0b0000000000000001
def MAX3100_CONF_BAUD_X2_57600 : Nat := 0b0000000000000010
def MAX3100_CONF_BAUD_X2_38400 : Nat := 0b0000000000001001
def MAX3100_CONF_BAUD_X2_19200 : Nat := 0b0000000000001010
def MAX3100_CONF_BAUD_X2_9600 : Nat := 0b0000000000001011
def MAX3100_CONF_BAUD_X2_4800 : Nat := 0b0000000000001100
def MAX3100_CONF_BAUD_X2_2400 : Nat := 0b0000000000001101
def MAX3100_CONF_BAUD_X2_1200 : Nat := 0b0000000000001110
def MAX3100_CONF_BAUD_X2_600 : Nat := 0b0000000000001111

/-- The baud-divisor `switch` statements of `MAX3100_open`
(`max3100_module.c` lines 984-1016): `crystal == 2` selects the x2
table, anything else the x1 table; the `default` case of each `switch`
yields that table's 9600-baud entry. -/
def resolveBaud (crystal baud : Int) : Nat :=
  if crystal = 2 then
    if baud = 230400 then MAX3100_CONF_BAUD_X2_230400
    else if baud = 115200 then MAX3100_CONF_BAUD_X2_115200
    else if baud = 57600 then MAX3100_CONF_BAUD_X2_57600
    else if baud = 38400 then MAX3100_CONF_BAUD_X2_38400
    else if baud = 19200 then MAX3100_CONF_BAUD_X2_19200
    else if baud = 4800 then MAX3100_CONF_BAUD_X2_4800
    else if baud = 2400 then MAX3100_CONF_BAUD_X2_2400
    else if baud = 1200 then MAX3100_CONF_BAUD_X2_1200
    else if baud = 600 then MAX3100_CONF_BAUD_X2_600
    else MAX3100_CONF_BAUD_X2_9600
  else
    if baud = 115200 then MAX3100_CONF_BAUD_X1_115200
    else if baud = 57600 then MAX3100_CONF_BAUD_X1_57600
    else if baud = 38400 then MAX3100_CONF_BAUD_X1_38400
    else if baud = 19200 then MAX3100_CONF_BAUD_X1_19200
    else if baud = 4800 then MAX3100_CONF_BAUD_X1_4800
    else if baud = 2400 then MAX3100_CONF_BAUD_X1_2400
    else if baud = 1200 then MAX3100_CONF_BAUD_X1_1200
    else if baud = 600 then MAX3100_CONF_BAUD_X1_600
    else if baud = 300 then MAX3100_CONF_BAUD_X1_300
    else MAX3100_CONF_BAUD_X1_9600

/-- The baud values the x2 `switch` handles explicitly (its `case`
labels). -/
def supportedBaudsX2 : List Int :=
  [230400, 115200, 57600, 38400, 19200, 4800, 2400, 1200, 600]

/-- The baud values the x1 `switch` handles explicitly (its `case`
labels). -/
def supportedBaudsX1 : List Int :=
  [115200, 57600, 38400, 19200, 4800, 2400, 1200, 600, 300]

/-! ## Handle state and the open/close state machine -/

/-- The device-handle fields of `MAX3100_Object` the open/close state
machine touches: `fd` (with `-1` as the closed sentinel), `mode`,
`bits_per_word`, `max_speed_hz`. -/
structure HState where
  fd : Int
  mode : Nat
  bits : Nat
  speed : Nat
deriving DecidableEq, Repr

/-- The state `MAX3100_new` establishes (`max3100_module.c` lines
154-168) and the reset performed by `MAX3100_close`: `fd = -1`, all
configuration fields zero. -/
def newHandle : HState := { fd := -1, mode := 0, bits := 0, speed := 0 }

/-- Outcomes of the kernel calls `MAX3100_open` makes, in program
order: whether the `snprintf` device-path bound (on `bus`/`device`)
overflows, what descriptor `open(2)` yields (`none` = failure), and the
results of the three `SPI_IOC_RD_*` ioctls (`none` = failure). -/
structure OpenEnv where
  pathOverflow : Bool
  openFd : Option Nat
  modeRes : Option Nat
  bitsRes : Option Nat
  speedRes : Option Nat
deriving DecidableEq, Repr

/-- `MAX3100_open` (`max3100_module.c` lines 949-1025), threading the
handle state through each kernel call in program order.  Every failing
step returns with the state exactly as the C code leaves it (in
particular, an ioctl failure after `open(2)` succeeded leaves the fresh
descriptor in `self->fd`).  On full success the resolved divisor is
OR'ed with `MAX3100_CMD_WRITE_CONF | MAX3100_CONF_RM` and that word is
written to the bus; the third component is the trace of configuration
words written. -/
def MAX3100_open (env : OpenEnv) (s : HState) (crystal baud : Int) :
    Except PyErr Unit × HState × List Nat :=
  if env.pathOverflow then (.error .overflowError, s, [])
  else
    match env.openFd with
    | none => (.error .ioError, { s with fd := -1 }, [])
    | some f =>
        let s1 := { s with fd := (f : Int) }
        match env.modeRes with
        | none => (.error .ioError, s1, [])
        | some m =>
            let s2 := { s1 with mode := m % 256 }
            match env.bitsRes with
            | none => (.error .ioError, s2, [])
            | some b =>
                let s3 := { s2 with bits := b % 256 }
                match env.speedRes with
                | none => (.error .ioError, s3, [])
                | some sp =>
                    let s4 := { s3 with speed := sp % 4294967296 }
                    (.ok (),
                     s4,
                     [Nat.lor (resolveBaud crystal baud)
                        (Nat.lor MAX3100_CMD_WRITE_CONF MAX3100_CONF_RM)])

/-- `MAX3100_close` (`max3100_module.c` lines 174-189): when the handle
holds a descriptor and `close(2)` on it fails, an `IOError` is raised
and the handle is left untouched; otherwise (including on an
already-closed handle, where no syscall is made) every field is reset
to the closed state.  `closeFails` records whether the `close(2)`
syscall would fail. -/
def MAX3100_close (closeFails : Bool) (s : HState) :
    Except PyErr Unit × HState :=
  if s.fd ≠ -1 ∧ closeFails = true then (.error .ioError, s)
  else (.ok (), newHandle)

/-- The spec's "closed" handle state: no transport (the `-1` sentinel)
and zero configuration. -/
def isClosedState (s : HState) : Prop :=
  s.fd = -1 ∧ s.mode = 0 ∧ s.bits = 0 ∧ s.speed = 0

/-- The spec's "open" handle state: a valid transport handle and
non-zero configuration. -/
def isOpenState (s : HState) : Prop :=
  s.fd ≠ -1 ∧ ¬(s.mode = 0 ∧ s.bits = 0 ∧ s.speed = 0)

/-! ## Ring buffer (spec §3, §4.4)

The repository variant under `src/` contains no ring buffer; the spec
describes it for the fuller driver iteration.  The following
definitions are modelled from the spec. -/

/-- Modelled from the spec: the fixed-capacity circular byte store with
read cursor `bufst` and write cursor `bufend`, both in `[0, cap)`
(missing from `src/`; spec §3 "Ring Buffer").  Occupancy depends only
on the cursors, so byte contents are not carried. -/
structure Ring where
  cap : Nat
  bufst : Nat
  bufend : Nat
deriving DecidableEq, Repr

/-- The reported occupancy count, exactly as the spec writes it:
`(bufend - bufst + C) mod C`, computed in integers. -/
def ringOcc (r : Ring) : Int :=
  ((r.bufend : Int) - (r.bufst : Int) + (r.cap : Int)) % (r.cap : Int)

/-- Occupancy as a natural number (same value as `ringOcc` on
well-formed cursors; used internally by the proofs). -/
def ringOccN (r : Ring) : Nat :=
  (r.bufend + r.cap - r.bufst) % r.cap

/-- Modelled from the spec: one append by the receive pump (missing
from `src/`; spec §4.4).  The write cursor advances modulo the
capacity; if the buffer thereby reaches the disallowed full state
(occupancy `cap - 1`), this is a fatal overrun error, never a silent
drop. -/
def ringPumpByte (r : Ring) : Except Unit Ring :=
  let r2 : Ring := { r with bufend := (r.bufend + 1) % r.cap }
  if ringOccN r2 = r.cap - 1 then .error () else .ok r2

/-- Modelled from the spec: a pump run that finds `n` available bytes
on the chip side appends each in turn, stopping with the overrun error
if any append reaches the full state (spec §4.4). -/
def ringPump : Ring → Nat → Except Unit Ring
  | r, 0 => .ok r
  | r, n + 1 =>
      match ringPumpByte r with
      | .error e => .error e
      | .ok r2 => ringPump r2 n

/-- Modelled from the spec: one dequeue by `read` — the read cursor
advances modulo the capacity unless the buffer is empty
(`bufst == bufend`, spec §3). -/
def ringReadOne (r : Ring) : Ring :=
  if r.bufst = r.bufend then r
  else { r with bufst := (r.bufst + 1) % r.cap }

/-- Modelled from the spec: a read that dequeues up to `n` bytes,
stopping early when the buffer empties (spec §4.5). -/
def ringReadN : Ring → Nat → Ring
  | r, 0 => r
  | r, n + 1 => ringReadN (ringReadOne r) n

/-- Modelled from the spec: `clear` resets both cursors to zero
(spec §3, §4.5). -/
def ringClear (r : Ring) : Ring :=
  { r with bufst := 0, bufend := 0 }

/-- One ring-buffer operation of the claim's "sequence of pump, read,
and clear operations": a pump run that finds `n` bytes, a read of up to
`n` bytes, or a clear. -/
inductive RingOp where
  | pump (n : Nat)
  | read (n : Nat)
  | clear
deriving DecidableEq, Repr

/-- Applies one ring-buffer operation. -/
def ringStep (r : Ring) : RingOp → Except Unit Ring
  | .pump n => ringPump r n
  | .read n => .ok (ringReadN r n)
  | .clear => .ok (ringClear r)

/-- Runs a sequence of ring-buffer operations, propagating the overrun
error. -/
def ringRun (r : Ring) : List RingOp → Except Unit Ring
  | [] => .ok r
  | op :: ops =>
      match ringStep r op with
      | .error e => .error e
      | .ok r2 => ringRun r2 ops

/-- The empty ring buffer of capacity `cap`, as allocated at handle
open time. -/
def ringInit (cap : Nat) : Ring := { cap := cap, bufst := 0, bufend := 0 }

/-- Well-formedness invariant of a ring-buffer state: capacity at least
2, cursors in range, and occupancy strictly below the disallowed full
value `cap - 1`. -/
def GoodRing (r : Ring) : Prop :=
  2 ≤ r.cap ∧ r.bufst < r.cap ∧ r.bufend < r.cap ∧ ringOccN r + 1 < r.cap

/-! ### Ring-buffer lemmas -/

theorem ringOccN_eq (c s b : Nat) (hs : s < c) (hb : b < c) :
    ringOccN ⟨c, s, b⟩ = if s ≤ b then b - s else b + c - s := by
  unfold ringOccN
  dsimp only
  by_cases h : s ≤ b
  · have h1 : b + c - s = (b - s) + c := by omega
    rw [h1, Nat.add_mod_right, Nat.mod_eq_of_lt (by omega), if_pos h]
  · have h2 : b + c - s < c := by omega
    rw [Nat.mod_eq_of_lt h2, if_neg h]

theorem mod_succ_cases (a c : Nat) (h : a < c) :
    (a + 1) % c = if a + 1 = c then 0 else a + 1 := by
  by_cases h1 : a + 1 = c
  · rw [if_pos h1, h1, Nat.mod_self]
  · rw [if_neg h1, Nat.mod_eq_of_lt (by omega)]

theorem ringOccN_lt (c s b : Nat) (hc : 0 < c) : ringOccN ⟨c, s, b⟩ < c :=
  Nat.mod_lt _ hc

/-- Advancing the write cursor bumps the occupancy by one,
modulo the capacity. -/
theorem ringOccN_succ_end (c s b : Nat) (hs : s < c) (hb : b < c) :
    ringOccN ⟨c, s, (b + 1) % c⟩ = (ringOccN ⟨c, s, b⟩ + 1) % c := by
  rw [mod_succ_cases b c hb,
    mod_succ_cases (ringOccN ⟨c, s, b⟩) c (ringOccN_lt c s b (by omega)),
    ringOccN_eq c s b hs hb]
  by_cases hw : b + 1 = c
  · rw [if_pos hw, ringOccN_eq c s 0 hs (by omega)]
    split_ifs <;> omega
  · rw [if_neg hw, ringOccN_eq c s (b + 1) hs (by omega)]
    split_ifs <;> omega

/-- Advancing the read cursor of a non-empty buffer drops the
occupancy by one. -/
theorem ringOccN_succ_start (c s b : Nat) (hs : s < c) (hb : b < c)
    (hne : s ≠ b) :
    ringOccN ⟨c, (s + 1) % c, b⟩ = ringOccN ⟨c, s, b⟩ - 1 := by
  rw [mod_succ_cases s c hs, ringOccN_eq c s b hs hb]
  by_cases hw : s + 1 = c
  · rw [if_pos hw, ringOccN_eq c 0 b (by omega) hb]
    split_ifs <;> omega
  · rw [if_neg hw, ringOccN_eq c (s + 1) b (by omega) hb]
    split_ifs <;> omega

/-- Unfolding of `ringPumpByte` on an explicit state. -/
theorem ringPumpByte_char (c s b : Nat) :
    ringPumpByte ⟨c, s, b⟩ =
      if ringOccN ⟨c, s, (b + 1) % c⟩ = c - 1 then .error ()
      else .ok ⟨c, s, (b + 1) % c⟩ := rfl

theorem ringPumpByte_ok {r r2 : Ring} (hg : GoodRing r)
    (h : ringPumpByte r = .ok r2) :
    GoodRing r2 ∧ r2.cap = r.cap := by
  obtain ⟨c, s, b⟩ := r
  obtain ⟨hg1, hg2, hg3, hg4⟩ := hg
  have hc : 2 ≤ c := hg1
  have hs : s < c := hg2
  have hb : b < c := hg3
  have ho : ringOccN ⟨c, s, b⟩ + 1 < c := hg4
  rw [ringPumpByte_char] at h
  split at h
  · cases h
  · rename_i hcond
    cases h
    rw [ringOccN_succ_end c s b hs hb] at hcond
    have hlt := ringOccN_lt c s b (show 0 < c by omega)
    have hmod : (ringOccN ⟨c, s, b⟩ + 1) % c = ringOccN ⟨c, s, b⟩ + 1 :=
      Nat.mod_eq_of_lt (by omega)
    refine ⟨⟨hc, hs, Nat.mod_lt _ (by omega), ?_⟩, rfl⟩
    show ringOccN ⟨c, s, (b + 1) % c⟩ + 1 < c
    rw [ringOccN_succ_end c s b hs hb, hmod]
    rw [hmod] at hcond
    omega

theorem ringReadOne_good {r : Ring} (hg : GoodRing r) :
    GoodRing (ringReadOne r) ∧ (ringReadOne r).cap = r.cap := by
  obtain ⟨c, s, b⟩ := r
  obtain ⟨hg1, hg2, hg3, hg4⟩ := hg
  have hc : 2 ≤ c := hg1
  have hs : s < c := hg2
  have hb : b < c := hg3
  have ho : ringOccN ⟨c, s, b⟩ + 1 < c := hg4
  unfold ringReadOne
  dsimp only
  by_cases he : s = b
  · rw [if_pos he]
    exact ⟨⟨hc, hs, hb, ho⟩, rfl⟩
  · rw [if_neg he]
    refine ⟨⟨hc, Nat.mod_lt _ (by omega), hb, ?_⟩, rfl⟩
    show ringOccN ⟨c, (s + 1) % c, b⟩ + 1 < c
    rw [ringOccN_succ_start c s b hs hb he]
    omega

theorem ringReadN_good {r : Ring} (n : Nat) (hg : GoodRing r) :
    GoodRing (ringReadN r n) ∧ (ringReadN r n).cap = r.cap := by
  induction n generalizing r with
  | zero => exact ⟨hg, rfl⟩
  | succ n ih =>
      obtain ⟨hg1, hcap1⟩ := ringReadOne_good hg
      obtain ⟨hg2, hcap2⟩ := ih hg1
      exact ⟨hg2, hcap2.trans hcap1⟩

theorem ringClear_good {r : Ring} (hg : GoodRing r) :
    GoodRing (ringClear r) ∧ (ringClear r).cap = r.cap := by
  obtain ⟨c, s, b⟩ := r
  obtain ⟨hg1, _, _, _⟩ := hg
  have hc : 2 ≤ c := hg1
  unfold ringClear
  refine ⟨⟨hc, show (0 : Nat) < c by omega, show (0 : Nat) < c by omega, ?_⟩, rfl⟩
  show ringOccN ⟨c, 0, 0⟩ + 1 < c
  rw [ringOccN_eq c 0 0 (by omega) (by omega), if_pos (Nat.le_refl 0)]
  omega

theorem ringPump_good {r r2 : Ring} (n : Nat) (hg : GoodRing r)
    (h : ringPump r n = .ok r2) : GoodRing r2 ∧ r2.cap = r.cap := by
  induction n generalizing r with
  | zero =>
      unfold ringPump at h
      cases h
      exact ⟨hg, rfl⟩
  | succ n ih =>
      unfold ringPump at h
      cases hstep : ringPumpByte r with
      | error e =>
          rw [hstep] at h
          cases h
      | ok rmid =>
          rw [hstep] at h
          obtain ⟨hg1, hcap1⟩ := ringPumpByte_ok hg hstep
          obtain ⟨hg2, hcap2⟩ := ih hg1 h
          exact ⟨hg2, hcap2.trans hcap1⟩

theorem ringStep_good {r r2 : Ring} {op : RingOp} (hg : GoodRing r)
    (h : ringStep r op = .ok r2) : GoodRing r2 ∧ r2.cap = r.cap := by
  cases op with
  | pump n => exact ringPump_good n hg h
  | read n =>
      unfold ringStep at h
      cases h
      exact ringReadN_good n hg
  | clear =>
      unfold ringStep at h
      cases h
      exact ringClear_good hg

theorem ringRun_good {r r2 : Ring} {ops : List RingOp} (hg : GoodRing r)
    (h : ringRun r ops = .ok r2) : GoodRing r2 ∧ r2.cap = r.cap := by
  induction ops generalizing r with
  | nil =>
      unfold ringRun at h
      cases h
      exact ⟨hg, rfl⟩
  | cons op ops ih =>
      unfold ringRun at h
      cases hstep : ringStep r op with
      | error e =>
          rw [hstep] at h
          cases h
      | ok rmid =>
          rw [hstep] at h
          obtain ⟨hg1, hcap1⟩ := ringStep_good hg hstep
          obtain ⟨hg2, hcap2⟩ := ih hg1 h
          exact ⟨hg2, hcap2.trans hcap1⟩

theorem ringOcc_eq_occN (r : Ring) (hs : r.bufst ≤ r.bufend + r.cap) :
    ringOcc r = (ringOccN r : Int) := by
  unfold ringOcc ringOccN
  have h1 : (r.bufend : Int) - (r.bufst : Int) + (r.cap : Int)
      = ((r.bufend + r.cap - r.bufst : Nat) : Int) := by
    rw [Nat.cast_sub hs]
    push_cast
    ring
  rw [h1, Int.natCast_mod]

/-- `true` exactly when the module call succeeded. -/
def exceptOk : Except PyErr Unit → Bool
  | .ok _ => true
  | .error _ => false

/-- `convertSeq` only fails on a non-integer element, and conversely a
non-integer element always makes it fail with the `TypeError`. -/
theorem convertSeq_other {l : List PyVal} (h : PyVal.other ∈ l) :
    convertSeq l = .error .typeError := by
  induction l with
  | nil => cases h
  | cons v rest ih =>
      cases v with
      | other => rfl
      | int n =>
          have hr : PyVal.other ∈ rest := by
            cases h with
            | tail _ h2 => exact h2
          unfold convertSeq
          rw [ih hr]

/-- On an all-integer list, `convertSeq` succeeds and truncates each
value modulo 256 — it never rejects an out-of-range value. -/
theorem convertSeq_map_int (ns : List Int) :
    convertSeq (ns.map PyVal.int) = .ok (ns.map toU8) := by
  induction ns with
  | nil => rfl
  | cons n rest ih =>
      unfold convertSeq
      simp only [List.map_cons]
      rw [ih]

/-- A successful conversion yields exactly one byte per element. -/
theorem convertSeq_length {l : List PyVal} {bs : List Nat}
    (h : convertSeq l = .ok bs) : bs.length = l.length := by
  induction l generalizing bs with
  | nil =>
      cases h
      rfl
  | cons v rest ih =>
      cases v with
      | other => cases h
      | int n =>
          unfold convertSeq at h
          cases hr : convertSeq rest with
          | error e =>
              rw [hr] at h
              cases h
          | ok bs2 =>
              rw [hr] at h
              cases h
              simp only [List.length_cons, ih hr]

/-! ## Claim theorems -/

/-- Claim C1, counterexample.  The claim says a positive `length` makes
`read` block until exactly `length` bytes are collected and return
them; but `MAX3100_readbytes` clamps the requested length to
`SPIDEV_MAXPATH = 4096`, so `read(5000)` returns 4096 bytes, not
5000. -/
theorem C1_counterexample :
    (MAX3100_readbytes 3 (fun _ => 0) 5000).map List.length = .ok 4096 ∧
      (5000 : Int) > 0 ∧ (4096 : Nat) ≠ 5000 := by
  refine ⟨?_, by decide, by decide⟩
  have h1 : clampReadLen 5000 = 4096 := by
    unfold clampReadLen SPIDEV_MAXPATH
    norm_num
  unfold MAX3100_readbytes sysRead
  rw [h1, if_neg (by norm_num)]
  simp only [Except.map, List.length_map, List.length_range]

/-- Claim C1, amended: `read(length)` has no separate zero/negative
modes — it clamps `length` into `[1, SPIDEV_MAXPATH]` and performs one
transport read of exactly the clamped count, returning that many
bytes. -/
theorem C1_read_clamps (fd : Int) (bus : Nat → Nat) (len : Int)
    (hfd : 0 ≤ fd) :
    ∃ bytes, MAX3100_readbytes fd bus len = .ok bytes ∧
      bytes.length = clampReadLen len ∧
      1 ≤ clampReadLen len ∧ clampReadLen len ≤ SPIDEV_MAXPATH := by
  unfold MAX3100_readbytes sysRead
  rw [if_neg (by omega)]
  refine ⟨_, rfl, by simp, ?_, ?_⟩ <;>
    · unfold clampReadLen SPIDEV_MAXPATH
      split_ifs <;> omega

/-- Claim C1, amended, witness at `fd = 0`, `len = 3`. -/
theorem C1_read_clamps_witness :
    ∃ bytes, MAX3100_readbytes 0 (fun _ => 0) 3 = .ok bytes ∧
      bytes.length = clampReadLen 3 ∧
      1 ≤ clampReadLen 3 ∧ clampReadLen 3 ≤ SPIDEV_MAXPATH :=
  C1_read_clamps 0 (fun _ => 0) 3 (by decide)

/-- Claim C2, counterexample.  The claim says `transfer16` swaps the
byte order (high byte first on the wire) and performs exactly one
full-duplex 2-byte transaction; but the code performs a 2-byte `write`
followed by a separate 2-byte `read` (two bus transactions) and sends
the word in host little-endian order: for the word 0x0100 the bytes on
the wire are `[0x00, 0x01]`, low byte first, and the trace has two
entries, not one. -/
theorem C2_counterexample :
    (transfer16 (fun _ => 0) 256).2 = [BusOp.wr [0, 1], BusOp.rd 2] ∧
      (transfer16 (fun _ => 0) 256).2.length = 2 ∧ (2 : Nat) ≠ 1 :=
  ⟨rfl, rfl, by decide⟩

/-- Claim C2, amended: `transfer16` performs two half-duplex bus
transactions — a 2-byte `write` of the outgoing word in host
little-endian order (low byte first, no byte swap) followed by a
2-byte `read` — and reassembles the received word little-endian from
the two bytes read (again without swapping). -/
theorem C2_transfer16_behavior (bus : Nat → Nat) (send : Nat) :
    transfer16 bus send =
      (bus 0 % 256 + 256 * (bus 1 % 256),
       [BusOp.wr [send % 256, send / 256 % 256], BusOp.rd 2]) := rfl

/-- Claim C3 (spec-modelled: `src/` contains no ring buffer): after any
sequence of pump, read, and clear operations started on the empty ring
buffer of capacity at least 2, the reported occupancy
`(bufend - bufst + C) mod C` is never negative and never exceeds
`C - 1`; moreover the full state (occupancy `C - 1`) is never reached
silently — the pump returns the fatal overrun error on the append that
would reach it. -/
theorem C3_ring_occupancy_invariant (cap : Nat) (ops : List RingOp)
    (r : Ring) (hcap : 2 ≤ cap) (h : ringRun (ringInit cap) ops = .ok r) :
    (0 ≤ ringOcc r ∧ ringOcc r ≤ (r.cap : Int) - 1 ∧
      ringOcc r ≠ (r.cap : Int) - 1) ∧
    (∀ r2 : Ring, GoodRing r2 → ringOccN r2 = r2.cap - 2 →
      ringPumpByte r2 = .error ()) := by
  constructor
  · have hinit : GoodRing (ringInit cap) := by
      refine ⟨hcap, show (0 : Nat) < cap by omega, show (0 : Nat) < cap by omega, ?_⟩
      show ringOccN ⟨cap, 0, 0⟩ + 1 < cap
      rw [ringOccN_eq cap 0 0 (by omega) (by omega), if_pos (Nat.le_refl 0)]
      omega
    obtain ⟨⟨hc, hs, hb, ho⟩, hcapeq⟩ := ringRun_good hinit h
    have hocc : ringOcc r = (ringOccN r : Int) :=
      ringOcc_eq_occN r (by omega)
    rw [hocc]
    refine ⟨by omega, by omega, ?_⟩
    intro hfull
    omega
  · intro r2 hg hocc
    obtain ⟨c, s, b⟩ := r2
    obtain ⟨hg1, hg2, hg3, _⟩ := hg
    have hc : 2 ≤ c := hg1
    have hs : s < c := hg2
    have hb : b < c := hg3
    have hocc' : ringOccN ⟨c, s, b⟩ = c - 2 := hocc
    have hcond : ringOccN ⟨c, s, (b + 1) % c⟩ = c - 1 := by
      rw [ringOccN_succ_end c s b hs hb, hocc',
        Nat.mod_eq_of_lt (show c - 2 + 1 < c by omega)]
      omega
    rw [ringPumpByte_char, if_pos hcond]

/-- Claim C3, witness: capacity 4, pump two bytes then read one. -/
theorem C3_ring_occupancy_invariant_witness :
    (0 ≤ ringOcc ⟨4, 1, 2⟩ ∧ ringOcc ⟨4, 1, 2⟩ ≤ ((⟨4, 1, 2⟩ : Ring).cap : Int) - 1 ∧
      ringOcc ⟨4, 1, 2⟩ ≠ ((⟨4, 1, 2⟩ : Ring).cap : Int) - 1) ∧
    (∀ r2 : Ring, GoodRing r2 → ringOccN r2 = r2.cap - 2 →
      ringPumpByte r2 = .error ()) :=
  C3_ring_occupancy_invariant 4 [RingOp.pump 2, RingOp.read 1] ⟨4, 1, 2⟩
    (by decide) rfl

/-- Claim C4, counterexample.  The claim says a byte value outside
`[0,255]` is rejected with an error before any hardware access; but
`MAX3100_writebytes` casts each `PyLong` with `(__u8)`, so the
out-of-range value 256 is silently truncated to 0 and written to the
transport: the call succeeds and one byte reaches the bus. -/
theorem C4_counterexample :
    MAX3100_writebytes 3 [PyVal.int 256] = (.ok (), [[0]]) ∧
      ¬((0 : Int) ≤ 256 ∧ (256 : Int) ≤ 255) :=
  ⟨rfl, by decide⟩

/-- Claim C4, amended: a non-integer element is rejected with a type
error before any hardware access and no bytes reach the transport; but
out-of-range integer elements are not rejected — every integer is
truncated modulo 256 and, for a list of 1 to 4096 integers on an open
descriptor, all truncated bytes are written in one transfer. -/
theorem C4_write_validation (fd : Int) (ns : List Int)
    (hfd : 0 ≤ fd) (h1 : ns.length ≠ 0) (h2 : ns.length ≤ SPIDEV_MAXPATH) :
    MAX3100_writebytes fd (ns.map PyVal.int) = (.ok (), [ns.map toU8]) ∧
    (∀ vals : List PyVal,
      PyVal.other ∈ vals.take (vals.length % 65536) →
        (MAX3100_writebytes fd vals).2 = [] ∧
        (vals.length % 65536 ≠ 0 → vals.length % 65536 ≤ SPIDEV_MAXPATH →
          MAX3100_writebytes fd vals = (.error .typeError, []))) := by
  have hmax : SPIDEV_MAXPATH = 4096 := rfl
  rw [hmax] at h2
  constructor
  · have hlen : (ns.map PyVal.int).length % 65536 = ns.length := by
      rw [List.length_map, Nat.mod_eq_of_lt (by omega)]
    have htake : (ns.map PyVal.int).take ((ns.map PyVal.int).length % 65536)
        = ns.map PyVal.int := by
      rw [hlen, ← List.length_map (f := PyVal.int), List.take_length]
    have hc1 : ¬((ns.map PyVal.int).length % 65536 = 0) := by
      rw [hlen]
      exact h1
    have hc2 : ¬(SPIDEV_MAXPATH < (ns.map PyVal.int).length % 65536) := by
      rw [hlen, hmax]
      omega
    unfold MAX3100_writebytes
    rw [if_neg hc1, if_neg hc2, htake, convertSeq_map_int]
    unfold sysWrite
    dsimp only
    rw [if_neg (show ¬fd < 0 by omega)]
    dsimp only
    rw [if_pos rfl]
  · intro vals hmem
    unfold MAX3100_writebytes
    by_cases hz : vals.length % 65536 = 0
    · rw [if_pos hz]
      exact ⟨rfl, fun hz2 _ => absurd hz hz2⟩
    · rw [if_neg hz]
      by_cases hov : SPIDEV_MAXPATH < vals.length % 65536
      · rw [if_pos hov]
        exact ⟨rfl, fun _ h => absurd hov (by omega)⟩
      · rw [if_neg hov, convertSeq_other hmem]
        exact ⟨rfl, fun _ _ => rfl⟩

/-- Claim C4, amended, witness: writing `[256, 1]` on descriptor 3
succeeds with the truncated bytes, and a list containing a non-integer
is rejected with no transfer. -/
theorem C4_write_validation_witness :
    MAX3100_writebytes 3 ([256, 1].map PyVal.int) = (.ok (), [[(256 : Int), 1].map toU8]) ∧
    (∀ vals : List PyVal,
      PyVal.other ∈ vals.take (vals.length % 65536) →
        (MAX3100_writebytes 3 vals).2 = [] ∧
        (vals.length % 65536 ≠ 0 → vals.length % 65536 ≤ SPIDEV_MAXPATH →
          MAX3100_writebytes 3 vals = (.error .typeError, []))) :=
  C4_write_validation 3 [256, 1] (by decide) (by decide) (by decide)

/-- Whether `MAX3100_open` succeeds depends only on the kernel-call
environment, never on the requested crystal multiplier or baud rate. -/
theorem open_ok_independent (env : OpenEnv) (s : HState)
    (crystal baud crystal2 baud2 : Int) :
    exceptOk (MAX3100_open env s crystal baud).1 =
      exceptOk (MAX3100_open env s crystal2 baud2).1 := by
  obtain ⟨p, o, m, bi, sp⟩ := env
  cases p <;> cases o <;> cases m <;> cases bi <;> cases sp <;> rfl

/-- Claim C5: baud resolution maps the supported (multiplier, baud)
pairs to their table entries and every unsupported combination to the
9600-baud entry of the selected table; `resolve(x2, 115200)` and
`resolve(x1, 115200)` yield distinct divisor encodings; and the open
operation never fails because of an unsupported baud (its success is
independent of the baud argument). -/
theorem C5_baud_resolution :
    (resolveBaud 2 115200 = MAX3100_CONF_BAUD_X2_115200 ∧
     resolveBaud 1 115200 = MAX3100_CONF_BAUD_X1_115200 ∧
     MAX3100_CONF_BAUD_X2_115200 ≠ MAX3100_CONF_BAUD_X1_115200) ∧
    (resolveBaud 2 230400 = MAX3100_CONF_BAUD_X2_230400 ∧
     resolveBaud 2 57600 = MAX3100_CONF_BAUD_X2_57600 ∧
     resolveBaud 2 38400 = MAX3100_CONF_BAUD_X2_38400 ∧
     resolveBaud 2 19200 = MAX3100_CONF_BAUD_X2_19200 ∧
     resolveBaud 2 9600 = MAX3100_CONF_BAUD_X2_9600 ∧
     resolveBaud 2 4800 = MAX3100_CONF_BAUD_X2_4800 ∧
     resolveBaud 2 2400 = MAX3100_CONF_BAUD_X2_2400 ∧
     resolveBaud 2 1200 = MAX3100_CONF_BAUD_X2_1200 ∧
     resolveBaud 2 600 = MAX3100_CONF_BAUD_X2_600) ∧
    (resolveBaud 1 57600 = MAX3100_CONF_BAUD_X1_57600 ∧
     resolveBaud 1 38400 = MAX3100_CONF_BAUD_X1_38400 ∧
     resolveBaud 1 19200 = MAX3100_CONF_BAUD_X1_19200 ∧
     resolveBaud 1 9600 = MAX3100_CONF_BAUD_X1_9600 ∧
     resolveBaud 1 4800 = MAX3100_CONF_BAUD_X1_4800 ∧
     resolveBaud 1 2400 = MAX3100_CONF_BAUD_X1_2400 ∧
     resolveBaud 1 1200 = MAX3100_CONF_BAUD_X1_1200 ∧
     resolveBaud 1 600 = MAX3100_CONF_BAUD_X1_600 ∧
     resolveBaud 1 300 = MAX3100_CONF_BAUD_X1_300) ∧
    (∀ baud : Int, baud ∉ supportedBaudsX2 →
      resolveBaud 2 baud = MAX3100_CONF_BAUD_X2_9600) ∧
    (∀ crystal baud : Int, crystal ≠ 2 → baud ∉ supportedBaudsX1 →
      resolveBaud crystal baud = MAX3100_CONF_BAUD_X1_9600) ∧
    (∀ (env : OpenEnv) (s : HState) (crystal baud crystal2 baud2 : Int),
      exceptOk (MAX3100_open env s crystal baud).1 =
        exceptOk (MAX3100_open env s crystal2 baud2).1) := by
  refine ⟨by decide, by decide, by decide, ?_, ?_, open_ok_independent⟩
  · intro baud h
    simp only [supportedBaudsX2, List.mem_cons, List.not_mem_nil, or_false,
      not_or] at h
    obtain ⟨n1, n2, n3, n4, n5, n6, n7, n8, n9⟩ := h
    simp [resolveBaud, n1, n2, n3, n4, n5, n6, n7, n8, n9]
  · intro crystal baud hc h
    simp only [supportedBaudsX1, List.mem_cons, List.not_mem_nil, or_false,
      not_or] at h
    obtain ⟨n1, n2, n3, n4, n5, n6, n7, n8, n9⟩ := h
    simp [resolveBaud, hc, n1, n2, n3, n4, n5, n6, n7, n8, n9]

/-- Claim C5, witness: the unsupported baud 1 falls back to the 9600
entry in both tables. -/
theorem C5_baud_resolution_witness :
    resolveBaud 2 1 = MAX3100_CONF_BAUD_X2_9600 ∧
    resolveBaud 1 1 = MAX3100_CONF_BAUD_X1_9600 :=
  ⟨C5_baud_resolution.2.2.2.1 1 (by decide),
   C5_baud_resolution.2.2.2.2.1 1 1 (by decide) (by decide)⟩

/-- Claim C6: on every successful open, the configuration word sent to
the chip equals the resolved baud divisor OR'ed with the write-config
command bits and the fixed receive-ready interrupt mask bit pattern
`RM`, and exactly one configuration word is sent; a failed open sends
none. -/
theorem C6_conf_word (env : OpenEnv) (s : HState) (crystal baud : Int)
    (h : (MAX3100_open env s crystal baud).1 = .ok ()) :
    (MAX3100_open env s crystal baud).2.2 =
      [Nat.lor (resolveBaud crystal baud)
        (Nat.lor MAX3100_CMD_WRITE_CONF MAX3100_CONF_RM)] ∧
    (MAX3100_open env s crystal baud).2.2.length = 1 := by
  obtain ⟨p, o, m, bi, sp⟩ := env
  cases p <;> cases o <;> cases m <;> cases bi <;> cases sp <;>
    first
      | exact ⟨rfl, rfl⟩
      | exact Except.noConfusion h

/-- Claim C6, witness: a fully successful open environment. -/
theorem C6_conf_word_witness :
    (MAX3100_open ⟨false, some 3, some 0, some 8, some 500000⟩
        newHandle 2 9600).2.2 =
      [Nat.lor (resolveBaud 2 9600)
        (Nat.lor MAX3100_CMD_WRITE_CONF MAX3100_CONF_RM)] ∧
    (MAX3100_open ⟨false, some 3, some 0, some 8, some 500000⟩
        newHandle 2 9600).2.2.length = 1 :=
  C6_conf_word ⟨false, some 3, some 0, some 8, some 500000⟩ newHandle 2 9600 rfl

/-- Claim C7, counterexample.  The claim says no partial handle state
(valid transport with zero configuration) is ever observable after any
sequence of open and close operations, including failing ones; but
when `open(2)` succeeds and the first `ioctl` fails, `MAX3100_open`
returns with `self->fd` already set to the fresh descriptor while all
configuration fields are still zero — a state that is neither closed
nor open in the spec's sense. -/
theorem C7_counterexample :
    ¬(isClosedState
        (MAX3100_open ⟨false, some 3, none, none, none⟩ newHandle 1 9600).2.1 ∨
      isOpenState
        (MAX3100_open ⟨false, some 3, none, none, none⟩ newHandle 1 9600).2.1) := by
  intro h
  rcases h with h | h
  · exact absurd h.1 (by decide)
  · exact h.2 ⟨rfl, rfl, rfl⟩

/-- Claim C7, amended: a fresh handle is in the closed state, and every
successful close resets the handle to the closed state; but a failed
open can leave a partial state — if the device node opens and an ioctl
then fails, the handle keeps the valid descriptor while every
configuration field stays zero, and that state, neither closed nor
open, is observable to callers. -/
theorem C7_handle_states (env : OpenEnv) (crystal baud : Int) (f : Nat)
    (hp : env.pathOverflow = false) (ho : env.openFd = some f)
    (hm : env.modeRes = none) :
    isClosedState newHandle ∧
    (∀ (cf : Bool) (s : HState), (MAX3100_close cf s).1 = .ok () →
      (MAX3100_close cf s).2 = newHandle ∧ isClosedState (MAX3100_close cf s).2) ∧
    (MAX3100_open env newHandle crystal baud).1 = .error .ioError ∧
    (MAX3100_open env newHandle crystal baud).2.1 =
      { fd := (f : Int), mode := 0, bits := 0, speed := 0 } := by
  obtain ⟨p, o, m, bi, sp⟩ := env
  cases hp
  cases ho
  cases hm
  refine ⟨⟨rfl, rfl, rfl, rfl⟩, ?_, rfl, rfl⟩
  intro cf s h
  unfold MAX3100_close at h ⊢
  by_cases hcon : s.fd ≠ -1 ∧ cf = true
  · rw [if_pos hcon] at h
    exact Except.noConfusion h
  · rw [if_neg hcon]
    exact ⟨rfl, rfl, rfl, rfl, rfl⟩

/-- Claim C7, amended, witness. -/
theorem C7_handle_states_witness :
    isClosedState newHandle ∧
    (∀ (cf : Bool) (s : HState), (MAX3100_close cf s).1 = .ok () →
      (MAX3100_close cf s).2 = newHandle ∧ isClosedState (MAX3100_close cf s).2) ∧
    (MAX3100_open ⟨false, some 3, none, none, none⟩ newHandle 1 9600).1 =
      .error .ioError ∧
    (MAX3100_open ⟨false, some 3, none, none, none⟩ newHandle 1 9600).2.1 =
      { fd := (3 : Int), mode := 0, bits := 0, speed := 0 } :=
  C7_handle_states ⟨false, some 3, none, none, none⟩ 1 9600 3 rfl rfl rfl

/-- On the closed-handle sentinel descriptor `-1`, `MAX3100_writebytes`
always fails and hands no bytes to the transport. -/
theorem writebytes_closed (vals : List PyVal) :
    ∃ e, MAX3100_writebytes (-1) vals = (.error e, []) := by
  unfold MAX3100_writebytes
  by_cases h0 : vals.length % 65536 = 0
  · rw [if_pos h0]
    exact ⟨.typeError, rfl⟩
  · rw [if_neg h0]
    by_cases h1 : SPIDEV_MAXPATH < vals.length % 65536
    · rw [if_pos h1]
      exact ⟨.overflowError, rfl⟩
    · rw [if_neg h1]
      cases hc : convertSeq (vals.take (vals.length % 65536)) with
      | error e => exact ⟨e, rfl⟩
      | ok bs => exact ⟨.ioError, rfl⟩

/-- Claim C8: every stream operation on a closed handle (descriptor
sentinel `-1`) fails with an error and is never a silent no-op —
`readbytes` returns the I/O error and no data, and `writebytes` returns
an error with an empty transport trace, so no bytes are sent. -/
theorem C8_closed_handle_rejected (bus : Nat → Nat) (len : Int)
    (vals : List PyVal) :
    MAX3100_readbytes (-1) bus len = .error .ioError ∧
    (∃ e, MAX3100_writebytes (-1) vals = (.error e, [])) := by
  constructor
  · unfold MAX3100_readbytes sysRead
    rw [if_pos (show (-1 : Int) < 0 by decide)]
  · exact writebytes_closed vals

/-- Claim C9, counterexample.  The claim says close always resets the
handle to the closed state; but when the handle holds a descriptor and
the `close(2)` syscall fails, `MAX3100_close` raises the I/O error and
leaves every field untouched — the handle is not reset. -/
theorem C9_counterexample :
    MAX3100_close true ⟨3, 0, 8, 500000⟩ =
      (.error .ioError, ⟨3, 0, 8, 500000⟩) ∧
    ((⟨3, 0, 8, 500000⟩ : HState).fd ≠ -1) :=
  ⟨rfl, by decide⟩

/-- Claim C9, amended: close on an already-closed handle always
succeeds and yields the closed state (idempotent, no syscall is made);
every close whose transport release does not fail resets the handle to
the closed state, and a second close after a successful one succeeds
and is a no-op; but a close whose `close(2)` fails raises an I/O error
and leaves the handle unchanged rather than resetting it. -/
theorem C9_close_behavior (cf : Bool) (s : HState) :
    (s.fd = -1 → MAX3100_close cf s = (.ok (), newHandle)) ∧
    (cf = false → MAX3100_close cf s = (.ok (), newHandle)) ∧
    ((MAX3100_close cf s).1 = .ok () → (MAX3100_close cf s).2 = newHandle) ∧
    (∀ e, (MAX3100_close cf s).1 = .error e → (MAX3100_close cf s).2 = s) ∧
    ((MAX3100_close cf s).1 = .ok () →
      MAX3100_close cf (MAX3100_close cf s).2 = (.ok (), newHandle)) := by
  unfold MAX3100_close
  by_cases hcond : s.fd ≠ -1 ∧ cf = true
  · rw [if_pos hcond]
    exact ⟨fun h => absurd h hcond.1,
           fun h => absurd (h ▸ hcond.2) (by decide),
           fun h => Except.noConfusion h,
           fun e _ => rfl,
           fun h => Except.noConfusion h⟩
  · rw [if_neg hcond]
    exact ⟨fun _ => rfl, fun _ => rfl, fun _ => rfl,
           fun e h => Except.noConfusion h,
           fun _ => if_neg (fun hcon => hcon.1 rfl)⟩

/-- Claim C9, amended, witness: a successful close of an open handle
resets it. -/
theorem C9_close_behavior_witness :
    MAX3100_close false ⟨3, 0, 8, 500000⟩ = (.ok (), newHandle) :=
  (C9_close_behavior false ⟨3, 0, 8, 500000⟩).2.1 rfl

/-- Claim C10, counterexample.  The claim says every sequence longer
than 4096 bytes fails with an overflow error before any transfer and
only sequences of 1 to 4096 elements reach the transport; but the
length is stored into a `uint16_t`, so a 65537-element sequence is
treated as length `65537 mod 65536 = 1`: the call passes both checks
and writes one byte to the transport. -/
theorem C10_counterexample :
    MAX3100_writebytes 3 (List.replicate 65537 (PyVal.int 7)) =
      (.ok (), [[7]]) ∧ SPIDEV_MAXPATH < 65537 := by
  constructor
  · have hlen : (List.replicate 65537 (PyVal.int 7)).length % 65536 = 1 := by
      rw [List.length_replicate]
    have htake : (List.replicate 65537 (PyVal.int 7)).take 1 = [PyVal.int 7] := by
      rw [List.take_replicate]
      rfl
    unfold MAX3100_writebytes
    rw [hlen, htake]
    rfl
  · decide

/-- Claim C10, amended: the size bounds are applied to the sequence
length reduced modulo 2^16 (the `uint16_t` truncation): a truncated
length of 0 fails with the type error, a truncated length above 4096
fails with the overflow error, and every buffer that reaches the
transport has exactly the truncated length, between 1 and 4096 — so a
sequence of 65537 elements bypasses the documented bound. -/
theorem C10_write_length_bounds (fd : Int) (vals : List PyVal) :
    (vals.length % 65536 = 0 →
      MAX3100_writebytes fd vals = (.error .typeError, [])) ∧
    (SPIDEV_MAXPATH < vals.length % 65536 →
      MAX3100_writebytes fd vals = (.error .overflowError, [])) ∧
    (∀ bs, bs ∈ (MAX3100_writebytes fd vals).2 →
      bs.length = vals.length % 65536 ∧
      1 ≤ vals.length % 65536 ∧ vals.length % 65536 ≤ SPIDEV_MAXPATH) := by
  refine ⟨?_, ?_, ?_⟩
  · intro h
    unfold MAX3100_writebytes
    rw [if_pos h]
  · intro h
    unfold MAX3100_writebytes
    rw [if_neg (by omega), if_pos h]
  · intro bs hbs
    unfold MAX3100_writebytes at hbs
    by_cases h0 : vals.length % 65536 = 0
    · rw [if_pos h0] at hbs
      exact absurd hbs (List.not_mem_nil bs)
    · rw [if_neg h0] at hbs
      by_cases h1 : SPIDEV_MAXPATH < vals.length % 65536
      · rw [if_pos h1] at hbs
        exact absurd hbs (List.not_mem_nil bs)
      · rw [if_neg h1] at hbs
        cases hc : convertSeq (vals.take (vals.length % 65536)) with
        | error e =>
            rw [hc] at hbs
            exact absurd hbs (List.not_mem_nil bs)
        | ok bs2 =>
            rw [hc] at hbs
            dsimp only at hbs
            have hle : vals.length % 65536 ≤ vals.length := Nat.mod_le _ _
            have hlen2 : bs2.length = vals.length % 65536 := by
              rw [convertSeq_length hc, List.length_take]
              omega
            unfold sysWrite at hbs
            by_cases hf : fd < 0
            · rw [if_pos hf] at hbs
              exact absurd hbs (List.not_mem_nil bs)
            · rw [if_neg hf] at hbs
              dsimp only at hbs
              rw [if_pos rfl] at hbs
              cases hbs with
              | head => exact ⟨hlen2, by omega, by omega⟩
              | tail _ h2 => exact absurd h2 (List.not_mem_nil bs)

/-- Claim C10, amended, witness: the empty sequence fails with the type
error. -/
theorem C10_write_length_bounds_witness :
    MAX3100_writebytes 3 ([] : List PyVal) = (.error .typeError, []) :=
  (C10_write_length_bounds 3 []).1 rfl

end Max3100
